import Mathlib

/-!
Verification of the prediction-market benchmarking engine
(`evo_researcher/benchmark/benchmark.py`) and the scraping helper
(`evo_researcher/functions/web_scrape.py`).

Python floats are embedded as exact rationals (ℚ); optional values as
`Option`; code paths that raise exceptions as `Except String`.
-/

namespace PredictionProphet

/-- Market record: a forecasting question with a reference probability
`p_yes`, as used by `benchmark.py` (`question`, `url`, `p_yes`). -/
structure Market where
  question : String
  url : String
  p_yes : ℚ
deriving Repr, DecidableEq

/-- Modelled from the spec: `OutcomePrediction` lives in
`benchmark/utils.py`, which is not under `src/`. Per the spec it carries
`p_yes` in [0,1], a `confidence` score, and an optional `info_utility`. -/
structure OutcomePrediction where
  p_yes : ℚ
  confidence : ℚ
  info_utility : Option ℚ
deriving Repr, DecidableEq

/-- Modelled from the spec: pre-answer judgment with an `is_predictable`
boolean (`benchmark/utils.py`, not under `src/`). -/
structure Evaluation where
  is_predictable : Bool
deriving Repr, DecidableEq

/-- Modelled from the spec: the `Prediction` record of `benchmark/utils.py`
(not under `src/`): optional `evaluation`, optional `outcome_prediction`,
optional `cost`, optional `time`. -/
structure Prediction where
  evaluation : Option Evaluation
  outcome_prediction : Option OutcomePrediction
  cost : Option ℚ
  time : Option ℚ
deriving Repr, DecidableEq

/-- Modelled from the spec: derived boolean `is_answered`, "true iff
`outcome_prediction` is present" (`benchmark/utils.py`, not under `src/`). -/
def Prediction.is_answered (p : Prediction) : Bool :=
  p.outcome_prediction.isSome

/-- Embeds the source's `check_not_none(p.outcome_prediction).p_yes`.
`check_not_none` raises on `None`; every call site in `benchmark.py` applies
it only after filtering for answered predictions, where `outcome_prediction`
is present, so the default value is never reached there. -/
def outcome_p_yes (p : Prediction) : ℚ :=
  (p.outcome_prediction.map OutcomePrediction.p_yes).getD 0

/-- Embeds `check_not_none(p.outcome_prediction).confidence` (same caveat as
`outcome_p_yes`). -/
def outcome_confidence (p : Prediction) : ℚ :=
  (p.outcome_prediction.map OutcomePrediction.confidence).getD 0

/-- Embeds `check_not_none(p.outcome_prediction).info_utility` (same caveat
as `outcome_p_yes`). -/
def outcome_info_utility (p : Prediction) : Option ℚ :=
  match p.outcome_prediction with
  | some o => o.info_utility
  | none => none

/-- Python truthiness of the optional float fields `p.cost` / `p.time`:
`if p.cost` is false for `None` and for `0.0`. -/
def py_truthy_float (c : Option ℚ) : Bool :=
  match c with
  | none => false
  | some x => x != 0

/-- Python truthiness of `p.evaluation and p.evaluation.is_predictable`:
falsy when `evaluation` is `None`, otherwise the value of `is_predictable`. -/
def evaluation_truthy_and_predictable (p : Prediction) : Bool :=
  match p.evaluation with
  | none => false
  | some e => e.is_predictable

/-- Benchmarker.filter_predictions_for_answered (benchmark.py:145-152):
keeps, in order, the (prediction, market) pairs whose prediction
`is_answered`, returning the two projections. -/
def filter_predictions_for_answered (predictions : List Prediction)
    (markets : List Market) : List Prediction × List Market :=
  let answered := (predictions.zip markets).filter fun pm => pm.1.is_answered
  (answered.map Prod.fst, answered.map Prod.snd)

/-- Benchmarker._compute_mse (benchmark.py:154-159). -/
def compute_mse (predictions : List Prediction) (markets : List Market) :
    Option ℚ :=
  let fp := filter_predictions_for_answered predictions markets
  if fp.1 = [] then none
  else
    some (((fp.1.zip fp.2).map fun pm =>
      (outcome_p_yes pm.1 - pm.2.p_yes) ^ 2).sum / (fp.1.length : ℚ))

/-- Benchmarker._compute_mean_confidence (benchmark.py:161-168). -/
def compute_mean_confidence (predictions : List Prediction)
    (markets : List Market) : Option ℚ :=
  let fp := filter_predictions_for_answered predictions markets
  if fp.1 = [] then none
  else some ((fp.1.map fun p => outcome_confidence p).sum / (fp.1.length : ℚ))

/-- Benchmarker._compute_mean_info_utility (benchmark.py:170-180): averages
`info_utility` over the answered predictions that have a non-null value. -/
def compute_mean_info_utility (predictions : List Prediction)
    (markets : List Market) : Option ℚ :=
  let fp := filter_predictions_for_answered predictions markets
  let predictions_with_info_utility :=
    fp.1.filter fun p => (outcome_info_utility p).isSome
  if predictions_with_info_utility = [] then none
  else
    some ((predictions_with_info_utility.map fun p =>
        (outcome_info_utility p).getD 0).sum /
      (predictions_with_info_utility.length : ℚ))

/-- Benchmarker._compute_percentage_within_range (benchmark.py:182-197). -/
def compute_percentage_within_range (predictions : List Prediction)
    (markets : List Market) (tolerance : ℚ) : Option ℚ :=
  let fp := filter_predictions_for_answered predictions markets
  if fp.1 = [] then none
  else
    let within_range_count := (fp.1.zip fp.2).countP fun pm =>
      decide (|outcome_p_yes pm.1 - pm.2.p_yes| ≤ tolerance)
    some ((100 : ℚ) * within_range_count / (fp.1.length : ℚ))

/-- Benchmarker._compute_correct_outcome_percentage (benchmark.py:199-211). -/
def compute_correct_outcome_percentage (predictions : List Prediction)
    (markets : List Market) : Option ℚ :=
  let fp := filter_predictions_for_answered predictions markets
  if fp.1 = [] then none
  else
    let correct_outcome_count := (fp.1.zip fp.2).countP fun pm =>
      decide ((outcome_p_yes pm.1 > 1/2 ∧ pm.2.p_yes > 1/2) ∨
        (outcome_p_yes pm.1 < 1/2 ∧ pm.2.p_yes < 1/2))
    some ((100 : ℚ) * correct_outcome_count / (fp.1.length : ℚ))

/-- Benchmarker._compute_confidence_p_yes_error_correlation
(benchmark.py:213-222). The nonempty branch calls `np.corrcoef`, a numeric
routine outside this repository; it is abstracted as the parameter
`corrcoef`, applied to the confidences and the absolute p_yes errors exactly
as in the source. -/
def compute_confidence_p_yes_error_correlation
    (corrcoef : List ℚ → List ℚ → ℚ) (predictions : List Prediction)
    (markets : List Market) : Option ℚ :=
  let fp := filter_predictions_for_answered predictions markets
  if fp.1 = [] then none
  else
    let p_yes_errors := (fp.1.zip fp.2).map fun pm =>
      |outcome_p_yes pm.1 - pm.2.p_yes|
    let confidences := fp.1.map fun p => outcome_confidence p
    some (corrcoef confidences p_yes_errors)

/-- Benchmarker._compute_mean_cost (benchmark.py:224-232):
`costs = [p.cost for p in predictions if p.cost]` uses Python truthiness,
so `None` and `0.0` costs are both dropped. -/
def compute_mean_cost (predictions : List Prediction)
    (markets : List Market) : Option ℚ :=
  let costs := (predictions.filter fun p => py_truthy_float p.cost).map
    fun p => p.cost.getD 0
  if costs = [] then none
  else some (costs.sum / (costs.length : ℚ))

/-- Benchmarker._compute_mean_time (benchmark.py:234-242), same truthiness
filter as `compute_mean_cost`. -/
def compute_mean_time (predictions : List Prediction)
    (markets : List Market) : Option ℚ :=
  let times := (predictions.filter fun p => py_truthy_float p.time).map
    fun p => p.time.getD 0
  if times = [] then none
  else some (times.sum / (times.length : ℚ))

/-- Benchmarker._compute_ratio_evaluated_as_answerable (benchmark.py:244-245):
divides by `len(predictions)` with no emptiness guard, so an empty input
raises `ZeroDivisionError`. -/
def compute_ratio_evaluated_as_answerable (predictions : List Prediction)
    (markets : List Market) : Except String ℚ :=
  if predictions.length = 0 then
    Except.error "ZeroDivisionError: division by zero"
  else
    Except.ok
      (((predictions.countP fun p => evaluation_truthy_and_predictable p) : ℚ) /
        (predictions.length : ℚ))

/-- Benchmarker._compute_ratio_answered (benchmark.py:247-248): same
unguarded division by `len(predictions)`. -/
def compute_ratio_answered (predictions : List Prediction)
    (markets : List Market) : Except String ℚ :=
  if predictions.length = 0 then
    Except.error "ZeroDivisionError: division by zero"
  else
    Except.ok (((predictions.countP fun p => p.is_answered) : ℚ) /
      (predictions.length : ℚ))

/-- Cell of the per-market summary table: either a numeric p_yes or a status
label such as "N/A", "S" or "F". -/
inductive SummaryCell where
  | num (v : ℚ)
  | label (s : String)
deriving Repr, DecidableEq

/-- Modelled from the spec: `should_not_happen` (benchmark/utils.py, not
under `src/`) raises — the spec's UnreachableStateError: "must be raised
loudly, never coerced to a default label". -/
def should_not_happen {α : Type} (msg : String) : Except String α :=
  Except.error msg

/-- Classification of one Prediction in Benchmarker.get_markets_summary
(benchmark.py:276-289): the chained conditional expression producing either
the numeric p_yes or a status label, falling through to
`should_not_happen`. -/
def get_markets_summary_cell (p : Prediction) : Except String SummaryCell :=
  if evaluation_truthy_and_predictable p && p.outcome_prediction.isSome then
    Except.ok (SummaryCell.num (outcome_p_yes p))
  else if !p.evaluation.isSome && !p.outcome_prediction.isSome then
    Except.ok (SummaryCell.label "N/A")
  else if p.evaluation.isSome && !evaluation_truthy_and_predictable p then
    Except.ok (SummaryCell.label "S")
  else if evaluation_truthy_and_predictable p && !p.outcome_prediction.isSome then
    Except.ok (SummaryCell.label "F")
  else should_not_happen "Unexpected case in get_markets_summary()."

/-- Benchmarker.calculate_expected_returns (benchmark.py:293-313). The
source's `assert prediction.outcome_prediction is not None` holds whenever
`is_answered` is true, so `outcome_p_yes`'s default is never reached. -/
def calculate_expected_returns (prediction : Prediction) (market : Market) :
    Option ℚ :=
  if !prediction.is_answered then none
  else
    let bet_units : ℚ := 10
    let receive_shares : ℚ := 20
    let buy_yes_threshold : ℚ := 1/2
    let yes_shares :=
      if outcome_p_yes prediction > buy_yes_threshold then receive_shares else 0
    let no_shares :=
      if outcome_p_yes prediction ≤ buy_yes_threshold then receive_shares else 0
    let expected_returns_pct :=
      yes_shares * market.p_yes + no_shares * (1 - market.p_yes) - bet_units
    some (100 * expected_returns_pct / bet_units)

/-- Agent as the Benchmarker sees it: only `agent_name` is consulted by the
construction-time logic verified here. -/
structure AbstractBenchmarkedAgent where
  agent_name : String
deriving Repr, DecidableEq

/-- Modelled from the spec: `PredictionsCache` (benchmark/utils.py, not under
`src/`) is "a mapping from agent name to a mapping from question text to
Prediction. Unique key = (agent_name, question)"; only the key set matters
for `has_market`. -/
structure PredictionsCache where
  keys : List (String × String)
deriving Repr, DecidableEq

/-- Modelled from the spec: `has(agent_name, question) -> bool: true iff a
prediction already exists for that pair` (spec §4.1; `has_market` in
benchmark/utils.py, not under `src/`). -/
def PredictionsCache.has_market (c : PredictionsCache)
    (agent_name question : String) : Bool :=
  c.keys.contains (agent_name, question)

/-- Benchmarker.__init__ working-market computation (benchmark.py:54-58):
under `only_cached`, keep the markets every registered agent has cached;
otherwise keep the list unchanged. -/
def benchmarker_markets (cache : PredictionsCache)
    (registered_agents : List AbstractBenchmarkedAgent)
    (markets : List Market) (only_cached : Bool) : List Market :=
  if only_cached then
    markets.filter fun m =>
      registered_agents.all fun agent =>
        cache.has_market agent.agent_name m.question
  else markets

/-- Benchmarker.__init__ agent-name uniqueness check (benchmark.py:43-45):
`len(set(names)) != len(agents)` raises `ValueError("Agents must have unique
names")`; it runs before the cache is touched. -/
def benchmarker_init_names_check (agents : List AbstractBenchmarkedAgent) :
    Except String Unit :=
  if ((agents.map AbstractBenchmarkedAgent.agent_name).dedup).length ≠
      agents.length then
    Except.error "Agents must have unique names"
  else Except.ok ()

/-- Response of the scraping client as `web_scrape` consumes it:
the `Content-Type` header (absent modelled as `none`, matching
`headers.get('Content-Type', '')`) and the body. -/
structure ScrapeResponse where
  content_type : Option String
  content : String

/-- Helper for `py_contains`: does the second char list start with the
first? -/
def starts_with_chars : List Char → List Char → Bool
  | [], _ => true
  | _ :: _, [] => false
  | a :: as, b :: bs => a == b && starts_with_chars as bs

/-- Helper for `py_contains`: does `sub` occur contiguously in the list? -/
def contains_chars (sub : List Char) : List Char → Bool
  | [] => starts_with_chars sub []
  | b :: bs => starts_with_chars sub (b :: bs) || contains_chars sub bs

/-- Python's `sub in s` substring test for strings. -/
def py_contains (sub s : String) : Bool :=
  contains_chars sub.data s.data

/-- web_scrape (web_scrape.py:8-34). The HTTP call is the `response`
argument: `Except.error` stands for a raised `requests.RequestException`.
The BeautifulSoup/markdownify text pipeline applied to an HTML body is
outside this repository and is abstracted as `extract`. -/
def web_scrape (extract : String → String) (url : String)
    (response : Except String ScrapeResponse) : String × String :=
  match response with
  | Except.error _ => ("", url)
  | Except.ok r =>
    if py_contains "text/html" (r.content_type.getD "") then
      (extract r.content, url)
    else ("", url)

/-- Answered (prediction, market) pairs projected to
(predicted p_yes, market p_yes), pairing preserved in order — the spec-level
notion of "answered pairs". -/
def answered_p_yes_pairs (predictions : List Prediction)
    (markets : List Market) : List (ℚ × ℚ) :=
  ((predictions.zip markets).filter fun pm => pm.1.is_answered).map
    fun pm => (outcome_p_yes pm.1, pm.2.p_yes)

/-- Spec-level predicate: predicted and reference probabilities lie strictly
on the same side of 0.5. -/
def same_side_of_half (q : ℚ × ℚ) : Prop :=
  (q.1 < 1/2 ∧ q.2 < 1/2) ∨ (1/2 < q.1 ∧ 1/2 < q.2)

instance : DecidablePred same_side_of_half := fun q => by
  unfold same_side_of_half; infer_instance

/-! Bridging lemmas between the embedded code and the spec-level notions. -/

theorem zip_map_fst_snd_eq {α β : Type} (l : List (α × β)) :
    (l.map Prod.fst).zip (l.map Prod.snd) = l := by
  induction l with
  | nil => rfl
  | cons a t ih => simp [ih]

theorem filter_answered_zip (ps : List Prediction) (ms : List Market) :
    (filter_predictions_for_answered ps ms).1.zip
      (filter_predictions_for_answered ps ms).2 =
      (ps.zip ms).filter fun pm => pm.1.is_answered := by
  simp only [filter_predictions_for_answered]
  exact zip_map_fst_snd_eq _

theorem filter_answered_fst (ps : List Prediction) (ms : List Market) :
    (filter_predictions_for_answered ps ms).1 =
      ((ps.zip ms).filter fun pm => pm.1.is_answered).map Prod.fst := by
  simp [filter_predictions_for_answered]

/-- Claim C10: `web_scrape` always returns the input url as the second
component; on a raised request exception, and on a response whose
Content-Type does not contain "text/html", the first component is the empty
string rather than an error. -/
theorem web_scrape_url_and_failure (extract : String → String) (url : String)
    (response : Except String ScrapeResponse) :
    (web_scrape extract url response).2 = url ∧
    (∀ e, response = Except.error e →
      (web_scrape extract url response).1 = "") ∧
    (∀ r, response = Except.ok r →
      py_contains "text/html" (r.content_type.getD "") = false →
      (web_scrape extract url response).1 = "") := by
  refine ⟨?_, ?_, ?_⟩
  · cases response with
    | error e => rfl
    | ok r =>
      simp only [web_scrape]
      by_cases h : py_contains "text/html" (r.content_type.getD "") <;> simp [h]
  · intro e he; subst he; rfl
  · intro r hr hct; subst hr; simp [web_scrape, hct]

theorem web_scrape_witness :
    (web_scrape id "https://example.com" (Except.error "timeout")).1 = "" ∧
    (web_scrape id "https://example.com"
      (Except.ok ⟨some "application/json", "x"⟩)).1 = "" ∧
    (web_scrape id "https://example.com"
      (Except.error "timeout")).2 = "https://example.com" :=
  ⟨(web_scrape_url_and_failure id "https://example.com"
      (Except.error "timeout")).2.1 "timeout" rfl,
   (web_scrape_url_and_failure id "https://example.com"
      (Except.ok ⟨some "application/json", "x"⟩)).2.2
      ⟨some "application/json", "x"⟩ rfl (by decide),
   (web_scrape_url_and_failure id "https://example.com"
      (Except.error "timeout")).1⟩

/-- Claim C6: `calculate_expected_returns` returns null exactly on unanswered
predictions — the result is present (a number) iff `is_answered` is true. -/
theorem calculate_expected_returns_isSome_iff_answered (p : Prediction)
    (m : Market) :
    (calculate_expected_returns p m).isSome = p.is_answered := by
  cases h : p.is_answered <;> simp [calculate_expected_returns, h]

/-- Claim C7: with `only_cached`, the working market set is exactly the input
markets for which every registered agent has a cached prediction keyed by
(agent name, question); without it, the working set is the input list
unchanged. -/
theorem benchmarker_markets_spec (cache : PredictionsCache)
    (agents : List AbstractBenchmarkedAgent) (markets : List Market) :
    (∀ m : Market, m ∈ benchmarker_markets cache agents markets true ↔
      m ∈ markets ∧ ∀ agent ∈ agents,
        cache.has_market agent.agent_name m.question = true) ∧
    benchmarker_markets cache agents markets false = markets := by
  constructor
  · intro m
    simp [benchmarker_markets, List.mem_filter, List.all_eq_true]
  · rfl

theorem benchmarker_markets_witness :
    benchmarker_markets ⟨[("a", "q1")]⟩ [⟨"a"⟩] [⟨"q1", "u1", 1/2⟩] false =
      [⟨"q1", "u1", 1/2⟩] :=
  (benchmarker_markets_spec ⟨[("a", "q1")]⟩ [⟨"a"⟩] [⟨"q1", "u1", 1/2⟩]).2

/-- Claim C8: construction fails with the uniqueness error precisely when the
agent-name list has a duplicate; with pairwise-distinct names the check
passes, before any cache work. -/
theorem benchmarker_init_names_check_spec
    (agents : List AbstractBenchmarkedAgent) :
    benchmarker_init_names_check agents =
        Except.error "Agents must have unique names" ↔
      ¬ (agents.map AbstractBenchmarkedAgent.agent_name).Nodup := by
  have hmaplen : (agents.map AbstractBenchmarkedAgent.agent_name).length =
      agents.length := List.length_map _ _
  have hlen : ((agents.map AbstractBenchmarkedAgent.agent_name).dedup).length =
        (agents.map AbstractBenchmarkedAgent.agent_name).length ↔
      (agents.map AbstractBenchmarkedAgent.agent_name).Nodup := by
    constructor
    · intro h
      rw [← List.dedup_eq_self]
      exact (List.dedup_sublist _).eq_of_length h
    · intro h
      rw [List.dedup_eq_self.mpr h]
  rw [benchmarker_init_names_check]
  by_cases hcond : ((agents.map AbstractBenchmarkedAgent.agent_name).dedup).length =
      agents.length
  · rw [if_neg (by simpa using hcond)]
    simp only [hmaplen] at hlen
    simp [hlen.mp hcond]
  · rw [if_pos (by simpa using hcond)]
    simp only [hmaplen] at hlen
    simp only [true_iff]
    intro hnodup
    exact hcond (hlen.mpr hnodup)

theorem benchmarker_init_names_check_witness :
    benchmarker_init_names_check [⟨"evo"⟩, ⟨"olas"⟩, ⟨"evo"⟩] =
      Except.error "Agents must have unique names" :=
  (benchmarker_init_names_check_spec [⟨"evo"⟩, ⟨"olas"⟩, ⟨"evo"⟩]).mpr
    (by decide)

/-- Claim C5: for every answered prediction, `calculate_expected_returns`
equals 100 × (yes_shares × m.p_yes + no_shares × (1 − m.p_yes) − 10) / 10
with yes_shares = 20, no_shares = 0 when the predicted p_yes exceeds 0.5 and
yes_shares = 0, no_shares = 20 otherwise; at predicted p_yes = 0.7 against a
market at 0.6 the result is 20. -/
theorem calculate_expected_returns_formula (p : Prediction) (m : Market)
    (h : p.is_answered = true) :
    calculate_expected_returns p m =
      some (100 * ((if 1/2 < outcome_p_yes p then (20 : ℚ) else 0) * m.p_yes +
        (if 1/2 < outcome_p_yes p then (0 : ℚ) else 20) * (1 - m.p_yes) - 10) /
        10) ∧
    calculate_expected_returns ⟨none, some ⟨7/10, 1, none⟩, none, none⟩
      ⟨"q", "u", 3/5⟩ = some 20 := by
  constructor
  · obtain ⟨ev, op, c, t⟩ := p
    cases op with
    | none => simp [Prediction.is_answered] at h
    | some o =>
      simp only [calculate_expected_returns, Prediction.is_answered,
        Option.isSome_some, Bool.not_true, Bool.false_eq_true, if_false,
        outcome_p_yes, Option.map_some', Option.getD_some, gt_iff_lt]
      split_ifs with h1 h2 h3 <;> first
        | rfl
        | (exfalso; linarith)
  · norm_num [calculate_expected_returns, Prediction.is_answered,
      outcome_p_yes]

theorem calculate_expected_returns_formula_witness :
    calculate_expected_returns ⟨none, some ⟨7/10, 1, none⟩, none, none⟩
      ⟨"q", "u", 3/5⟩ = some 20 :=
  (calculate_expected_returns_formula
    ⟨none, some ⟨7/10, 1, none⟩, none, none⟩ ⟨"q", "u", 3/5⟩ rfl).2

/-- Claim C9: the MSE metric over the answered pairs (in order) is the mean
of (predicted p_yes − market p_yes)²; it is some 0 on answered predictions
{0.5, 0.9} against markets {0.5, 0.9}, and some 1 on {0.0, 1.0} against
{1.0, 0.0}. -/
theorem compute_mse_spec (ps : List Prediction) (ms : List Market)
    (h : answered_p_yes_pairs ps ms ≠ []) :
    compute_mse ps ms =
      some (((answered_p_yes_pairs ps ms).map fun q => (q.1 - q.2) ^ 2).sum /
        ((answered_p_yes_pairs ps ms).length : ℚ)) ∧
    compute_mse
      [⟨none, some ⟨1/2, 1, none⟩, none, none⟩,
       ⟨none, some ⟨9/10, 1, none⟩, none, none⟩]
      [⟨"q1", "u", 1/2⟩, ⟨"q2", "u", 9/10⟩] = some 0 ∧
    compute_mse
      [⟨none, some ⟨0, 1, none⟩, none, none⟩,
       ⟨none, some ⟨1, 1, none⟩, none, none⟩]
      [⟨"q1", "u", 1⟩, ⟨"q2", "u", 0⟩] = some 1 := by
  refine ⟨?_,
    by norm_num [compute_mse, filter_predictions_for_answered,
      Prediction.is_answered, outcome_p_yes] <;> simp,
    by norm_num [compute_mse, filter_predictions_for_answered,
      Prediction.is_answered, outcome_p_yes] <;> simp⟩
  have hne : ((ps.zip ms).filter fun pm => pm.1.is_answered) ≠ [] := by
    intro hnil
    apply h
    unfold answered_p_yes_pairs
    rw [hnil]
    rfl
  simp only [compute_mse]
  rw [filter_answered_zip, filter_answered_fst]
  rw [if_neg (by simpa [List.map_eq_nil_iff] using hne)]
  unfold answered_p_yes_pairs
  simp [List.map_map, List.length_map, Function.comp_def]

theorem compute_mse_spec_witness :
    answered_p_yes_pairs [⟨none, some ⟨0, 1, none⟩, none, none⟩]
        [⟨"q", "u", 1⟩] ≠ [] ∧
    compute_mse [⟨none, some ⟨0, 1, none⟩, none, none⟩] [⟨"q", "u", 1⟩] =
      some (((answered_p_yes_pairs [⟨none, some ⟨0, 1, none⟩, none, none⟩]
          [⟨"q", "u", 1⟩]).map fun q => (q.1 - q.2) ^ 2).sum /
        ((answered_p_yes_pairs [⟨none, some ⟨0, 1, none⟩, none, none⟩]
          [⟨"q", "u", 1⟩]).length : ℚ)) :=
  ⟨by decide,
   (compute_mse_spec [⟨none, some ⟨0, 1, none⟩, none, none⟩] [⟨"q", "u", 1⟩]
     (by decide)).1⟩

/-- Claim C4: for a non-empty answered subset, the '% correct outcome' metric
is 100 × (number of answered pairs whose two probabilities lie strictly on
the same side of 0.5) / (number of all answered pairs), and a pair with
either probability exactly 0.5 never satisfies the same-side predicate while
still counting in the denominator. -/
theorem compute_correct_outcome_percentage_spec (ps : List Prediction)
    (ms : List Market) (h : answered_p_yes_pairs ps ms ≠ []) :
    compute_correct_outcome_percentage ps ms =
      some ((100 : ℚ) * ((answered_p_yes_pairs ps ms).countP fun q =>
          decide (same_side_of_half q)) /
        ((answered_p_yes_pairs ps ms).length : ℚ)) ∧
    ∀ q ∈ answered_p_yes_pairs ps ms, (q.1 = 1/2 ∨ q.2 = 1/2) →
      ¬ same_side_of_half q := by
  constructor
  · have hne : ((ps.zip ms).filter fun pm => pm.1.is_answered) ≠ [] := by
      intro hnil
      apply h
      unfold answered_p_yes_pairs
      rw [hnil]
      rfl
    have hpred : (fun pm : Prediction × Market =>
        decide ((outcome_p_yes pm.1 > 1/2 ∧ pm.2.p_yes > 1/2) ∨
          (outcome_p_yes pm.1 < 1/2 ∧ pm.2.p_yes < 1/2))) =
        ((fun q => decide (same_side_of_half q)) ∘
          fun pm => (outcome_p_yes pm.1, pm.2.p_yes)) := by
      funext pm
      simp only [Function.comp, decide_eq_decide, same_side_of_half]
      tauto
    simp only [compute_correct_outcome_percentage]
    rw [filter_answered_zip, filter_answered_fst]
    rw [if_neg (by simpa [List.map_eq_nil_iff] using hne)]
    unfold answered_p_yes_pairs
    rw [List.countP_map, ← hpred]
    simp [List.length_map]
  · intro q _ hhalf
    rcases hhalf with h1 | h1 <;> simp [same_side_of_half, h1]

theorem compute_correct_outcome_percentage_spec_witness :
    answered_p_yes_pairs [⟨none, some ⟨1/2, 1, none⟩, none, none⟩]
        [⟨"q", "u", 1/2⟩] ≠ [] ∧
    compute_correct_outcome_percentage
        [⟨none, some ⟨1/2, 1, none⟩, none, none⟩] [⟨"q", "u", 1/2⟩] =
      some ((100 : ℚ) * ((answered_p_yes_pairs
          [⟨none, some ⟨1/2, 1, none⟩, none, none⟩]
          [⟨"q", "u", 1/2⟩]).countP fun q => decide (same_side_of_half q)) /
        ((answered_p_yes_pairs [⟨none, some ⟨1/2, 1, none⟩, none, none⟩]
          [⟨"q", "u", 1/2⟩]).length : ℚ)) :=
  ⟨by decide,
   (compute_correct_outcome_percentage_spec
     [⟨none, some ⟨1/2, 1, none⟩, none, none⟩] [⟨"q", "u", 1/2⟩]
     (by decide)).1⟩

/-- Claim C2 counterexample: a Prediction with `outcome_prediction` present
but no `evaluation` is NOT rendered as the numeric p_yes — the code falls
through to `should_not_happen` and raises. -/
theorem get_markets_summary_cell_counterexample :
    get_markets_summary_cell ⟨none, some ⟨7/10, 1, none⟩, none, none⟩ =
      Except.error "Unexpected case in get_markets_summary()." ∧
    get_markets_summary_cell ⟨none, some ⟨7/10, 1, none⟩, none, none⟩ ≠
      Except.ok (SummaryCell.num (7/10)) := by
  have h1 : get_markets_summary_cell
      ⟨none, some ⟨7/10, 1, none⟩, none, none⟩ =
      Except.error "Unexpected case in get_markets_summary()." := rfl
  refine ⟨h1, ?_⟩
  rw [h1]
  simp

/-- Claim C2 (amended): no evaluation and no outcome renders "N/A";
evaluation with `is_predictable = false` renders "S"; evaluation with
`is_predictable = true` and no outcome renders "F"; outcome present renders
the numeric p_yes only when an evaluation with `is_predictable = true` is
also present; outcome present without an evaluation raises the
unreachable-state error instead of rendering. -/
theorem get_markets_summary_cell_cases (p : Prediction) :
    (p.evaluation = none ∧ p.outcome_prediction = none →
      get_markets_summary_cell p = Except.ok (SummaryCell.label "N/A")) ∧
    (∀ e, p.evaluation = some e → e.is_predictable = false →
      get_markets_summary_cell p = Except.ok (SummaryCell.label "S")) ∧
    (∀ e, p.evaluation = some e → e.is_predictable = true →
      p.outcome_prediction = none →
      get_markets_summary_cell p = Except.ok (SummaryCell.label "F")) ∧
    (∀ e o, p.evaluation = some e → e.is_predictable = true →
      p.outcome_prediction = some o →
      get_markets_summary_cell p = Except.ok (SummaryCell.num o.p_yes)) ∧
    (∀ o, p.evaluation = none → p.outcome_prediction = some o →
      get_markets_summary_cell p =
        Except.error "Unexpected case in get_markets_summary().") := by
  refine ⟨?_, ?_, ?_, ?_, ?_⟩
  · rintro ⟨he, ho⟩
    simp [get_markets_summary_cell, evaluation_truthy_and_predictable, he, ho]
  · intro e he hp
    simp [get_markets_summary_cell, evaluation_truthy_and_predictable, he, hp]
  · intro e he hp ho
    simp [get_markets_summary_cell, evaluation_truthy_and_predictable, he, hp,
      ho]
  · intro e o he hp ho
    simp [get_markets_summary_cell, evaluation_truthy_and_predictable, he, hp,
      ho, outcome_p_yes]
  · intro o he ho
    simp [get_markets_summary_cell, evaluation_truthy_and_predictable, he, ho,
      should_not_happen]

theorem get_markets_summary_cell_cases_witness :
    get_markets_summary_cell ⟨none, none, none, none⟩ =
      Except.ok (SummaryCell.label "N/A") ∧
    get_markets_summary_cell ⟨some ⟨false⟩, none, none, none⟩ =
      Except.ok (SummaryCell.label "S") ∧
    get_markets_summary_cell ⟨some ⟨true⟩, none, none, none⟩ =
      Except.ok (SummaryCell.label "F") ∧
    get_markets_summary_cell
        ⟨some ⟨true⟩, some ⟨3/4, 1, none⟩, none, none⟩ =
      Except.ok (SummaryCell.num (3/4)) :=
  ⟨(get_markets_summary_cell_cases ⟨none, none, none, none⟩).1 ⟨rfl, rfl⟩,
   (get_markets_summary_cell_cases ⟨some ⟨false⟩, none, none, none⟩).2.1
     ⟨false⟩ rfl rfl,
   (get_markets_summary_cell_cases ⟨some ⟨true⟩, none, none, none⟩).2.2.1
     ⟨true⟩ rfl rfl rfl,
   (get_markets_summary_cell_cases
     ⟨some ⟨true⟩, some ⟨3/4, 1, none⟩, none, none⟩).2.2.2.1
     ⟨true⟩ ⟨3/4, 1, none⟩ rfl rfl rfl⟩

/-- Lists the values the source keeps for the mean-cost/mean-time
denominators: filtering predictions by Python truthiness and projecting the
value equals taking the present values and dropping the zeros. -/
theorem truthy_values_eq (f : Prediction → Option ℚ) (ps : List Prediction) :
    ((ps.filter fun p => py_truthy_float (f p)).map fun p => (f p).getD 0) =
      (ps.filterMap f).filter fun c => c != 0 := by
  induction ps with
  | nil => rfl
  | cons p t ih =>
    cases hc : f p with
    | none =>
      have hpt : py_truthy_float none = false := rfl
      simp [List.filter_cons, List.filterMap_cons, hc, hpt, ih]
    | some c =>
      have hpt : py_truthy_float (some c) = (c != 0) := rfl
      by_cases h0 : c = 0
      · subst h0
        simp [List.filter_cons, List.filterMap_cons, hc, hpt, ih]
      · have hne : (c != 0) = true := by simpa using h0
        simp [List.filter_cons, List.filterMap_cons, hc, hpt, hne, ih]

/-- Characterizes when the truthiness filter keeps nothing: exactly when
every value is absent or zero. -/
theorem truthy_filter_nil_iff (f : Prediction → Option ℚ)
    (ps : List Prediction) :
    ((ps.filter fun p => py_truthy_float (f p)) = []) ↔
      ∀ p ∈ ps, f p = none ∨ f p = some 0 := by
  rw [List.filter_eq_nil_iff]
  constructor
  · intro h p hp
    have hfp := h p hp
    cases hc : f p with
    | none => exact Or.inl rfl
    | some c =>
      right
      rw [hc] at hfp
      simp [py_truthy_float] at hfp
      simp [hfp]
  · intro h p hp
    rcases h p hp with hc | hc <;> simp [py_truthy_float, hc]

/-- Claim C3 counterexample: a prediction whose cost is exactly 0.0 is
dropped by the truthiness filter `if p.cost`, so the mean over the single
prediction with cost 0.0 is None, not the claimed average 0.0; likewise for
time. -/
theorem compute_mean_cost_zero_excluded :
    compute_mean_cost [⟨none, none, some 0, none⟩] [] = none ∧
    compute_mean_cost [⟨none, none, some 0, none⟩] [] ≠ some 0 ∧
    compute_mean_time [⟨none, none, none, some 0⟩] [] = none := by
  have h1 : compute_mean_cost [⟨none, none, some 0, none⟩] [] = none := by
    simp [compute_mean_cost, py_truthy_float]
  have h2 : compute_mean_time [⟨none, none, none, some 0⟩] [] = none := by
    simp [compute_mean_time, py_truthy_float]
  refine ⟨h1, ?_, h2⟩
  rw [h1]
  simp

/-- Claim C3 (amended): 'Mean cost ($)' and 'Mean time (s)' average over
exactly those predictions whose cost/time is present AND nonzero (Python
truthiness); a prediction with value 0.0 is excluded from numerator and
denominator, and the metric is None exactly when every value is absent or
zero. -/
theorem compute_mean_cost_time_spec (ps : List Prediction)
    (ms : List Market) :
    (compute_mean_cost ps ms = none ↔
      ∀ p ∈ ps, p.cost = none ∨ p.cost = some 0) ∧
    compute_mean_cost ps ms =
      (if ((ps.filterMap Prediction.cost).filter fun c => c != 0) = []
       then none
       else some (((ps.filterMap Prediction.cost).filter fun c =>
           c != 0).sum /
         ((((ps.filterMap Prediction.cost).filter fun c =>
           c != 0)).length : ℚ))) ∧
    (compute_mean_time ps ms = none ↔
      ∀ p ∈ ps, p.time = none ∨ p.time = some 0) ∧
    compute_mean_time ps ms =
      (if ((ps.filterMap Prediction.time).filter fun c => c != 0) = []
       then none
       else some (((ps.filterMap Prediction.time).filter fun c =>
           c != 0).sum /
         ((((ps.filterMap Prediction.time).filter fun c =>
           c != 0)).length : ℚ))) := by
  have hceq := truthy_values_eq Prediction.cost ps
  have hteq := truthy_values_eq Prediction.time ps
  have hcnil := truthy_filter_nil_iff Prediction.cost ps
  have htnil := truthy_filter_nil_iff Prediction.time ps
  refine ⟨?_, ?_, ?_, ?_⟩
  · simp only [compute_mean_cost]
    constructor
    · intro hnone
      by_cases hnil :
          ((ps.filter fun p => py_truthy_float p.cost).map fun p =>
            p.cost.getD 0) = []
      · exact hcnil.mp (by simpa [List.map_eq_nil_iff] using hnil)
      · rw [if_neg hnil] at hnone
        cases hnone
    · intro hall
      rw [if_pos]
      simp [List.map_eq_nil_iff, hcnil.mpr hall]
  · simp only [compute_mean_cost, hceq]
  · simp only [compute_mean_time]
    constructor
    · intro hnone
      by_cases hnil :
          ((ps.filter fun p => py_truthy_float p.time).map fun p =>
            p.time.getD 0) = []
      · exact htnil.mp (by simpa [List.map_eq_nil_iff] using hnil)
      · rw [if_neg hnil] at hnone
        cases hnone
    · intro hall
      rw [if_pos]
      simp [List.map_eq_nil_iff, htnil.mpr hall]
  · simp only [compute_mean_time, hteq]

theorem compute_mean_cost_time_spec_witness :
    compute_mean_cost [⟨none, none, some (1/2), none⟩] [] =
      (if (([⟨none, none, some (1/2), none⟩] :
            List Prediction).filterMap Prediction.cost).filter
          (fun c => c != 0) = []
       then none
       else some (((([⟨none, none, some (1/2), none⟩] :
           List Prediction).filterMap Prediction.cost).filter
           (fun c => c != 0)).sum /
         (((([⟨none, none, some (1/2), none⟩] :
           List Prediction).filterMap Prediction.cost).filter
           (fun c => c != 0)).length : ℚ))) :=
  (compute_mean_cost_time_spec [⟨none, none, some (1/2), none⟩] []).2.1

/-- Claim C1 counterexample: the two whole-list registry metrics divide by
`len(predictions)` unguarded, so on an empty prediction list they raise
ZeroDivisionError instead of returning null. -/
theorem ratio_metrics_raise_on_empty :
    compute_ratio_answered [] [] =
      Except.error "ZeroDivisionError: division by zero" ∧
    compute_ratio_evaluated_as_answerable [] [] =
      Except.error "ZeroDivisionError: division by zero" :=
  ⟨rfl, rfl⟩

/-- Claim C1 (amended): each metric goes null exactly under its own empty
denominator — the five answered-only metrics return null whenever the
answered subset is empty (regardless of costs, times or info_utility);
mean info_utility returns null whenever its own denominator, the answered
predictions with non-null info_utility, is empty; Mean cost / Mean time
return null when no prediction has a truthy cost (resp. time); but
'Proportion answerable' and 'Proportion answered' raise ZeroDivisionError
on an empty prediction list (their denominator, the full list, is empty
exactly then) rather than returning null. -/
theorem metrics_empty_denominator (corrcoef : List ℚ → List ℚ → ℚ)
    (tolerance : ℚ) (ps : List Prediction) (ms : List Market) :
    ((ps.zip ms).filter (fun pm => pm.1.is_answered) = [] →
      compute_mse ps ms = none ∧
      compute_mean_confidence ps ms = none ∧
      compute_percentage_within_range ps ms tolerance = none ∧
      compute_correct_outcome_percentage ps ms = none ∧
      compute_confidence_p_yes_error_correlation corrcoef ps ms = none) ∧
    ((filter_predictions_for_answered ps ms).1.filter
        (fun p => (outcome_info_utility p).isSome) = [] →
      compute_mean_info_utility ps ms = none) ∧
    (ps.filter (fun p => py_truthy_float p.cost) = [] →
      compute_mean_cost ps ms = none) ∧
    (ps.filter (fun p => py_truthy_float p.time) = [] →
      compute_mean_time ps ms = none) ∧
    (ps = [] →
      compute_ratio_evaluated_as_answerable ps ms =
        Except.error "ZeroDivisionError: division by zero" ∧
      compute_ratio_answered ps ms =
        Except.error "ZeroDivisionError: division by zero") := by
  refine ⟨?_, ?_, ?_, ?_, ?_⟩
  · intro hans
    have hfst : (filter_predictions_for_answered ps ms).1 = [] := by
      rw [filter_answered_fst, hans]
      rfl
    refine ⟨?_, ?_, ?_, ?_, ?_⟩
    · simp [compute_mse, hfst]
    · simp [compute_mean_confidence, hfst]
    · simp [compute_percentage_within_range, hfst]
    · simp [compute_correct_outcome_percentage, hfst]
    · simp [compute_confidence_p_yes_error_correlation, hfst]
  · intro hinfo
    simp [compute_mean_info_utility, hinfo]
  · intro hcost
    simp [compute_mean_cost, hcost]
  · intro htime
    simp [compute_mean_time, htime]
  · intro hps
    subst hps
    exact ⟨rfl, rfl⟩

theorem metrics_empty_denominator_witness :
    compute_mse [⟨none, none, some 1, some 1⟩] [⟨"q", "u", 1/2⟩] = none ∧
    compute_mean_info_utility [⟨none, none, some 1, some 1⟩]
      [⟨"q", "u", 1/2⟩] = none ∧
    compute_mean_cost [] [] = none ∧
    compute_mean_time [] [] = none ∧
    compute_ratio_answered [] [] =
      Except.error "ZeroDivisionError: division by zero" := by
  have h1 := metrics_empty_denominator (fun _ _ => 0) 0
    [⟨none, none, some 1, some 1⟩] [⟨"q", "u", 1/2⟩]
  have h2 := metrics_empty_denominator (fun _ _ => 0) 0 [] []
  exact ⟨(h1.1 rfl).1, h1.2.1 rfl, h2.2.2.1 rfl, h2.2.2.2.1 rfl,
    (h2.2.2.2.2 rfl).2⟩

end PredictionProphet
